import Mathlib

/-!
Shallow embedding of the EVP MAC context layer (`src/contrib/openssl/crypto/evp/mac_lib.c`)
and of the CLI flag helper (`src/cli/cmd/util.go`).

Backend state (the C `void *data`) is modelled by a fixed countable carrier
`MData := Nat`; backend operation tables are records of Lean functions over it.
C functions returning `int` success flags and writing through pointers are
modelled as pure functions returning their results explicitly; `NULL`-able
pointers become `Option`.  An operation-table entry that may be a null function
pointer is an `Option` field; the places where the C code invokes such an entry
without a null check are modelled by a distinguished outcome constructor
(undefined behaviour in C), never silently repaired.
-/

namespace MacSpec

/-- Opaque per-algorithm backend state (`void *data` in `EVP_MAC_CTX`). -/
abbrev MData := Nat

/-- A byte of input or output. -/
abbrev Byte := Nat

/-- One `OSSL_PARAM` entry: a key and the value transported through it.
The embedding keeps only the key and the (numeric) payload; the C type tag and
buffer size are not needed by any code path in `mac_lib.c`. -/
structure OSSLParam where
  key : String
  value : Nat
deriving DecidableEq, Repr

/-- `OSSL_PARAM_construct_size_t`: build a size-typed entry. -/
def OSSL_PARAM_construct_size_t (k : String) (v : Nat) : OSSLParam := ⟨k, v⟩

/-- `OSSL_PARAM_construct_int`: build an int-typed entry. -/
def OSSL_PARAM_construct_int (k : String) (v : Nat) : OSSLParam := ⟨k, v⟩

/-- Read back the value an invoked handler left in the entry with key `k`
(the C caller reads the variable the param points at). -/
def lookupParam (k : String) (ps : List OSSLParam) : Option Nat :=
  (ps.find? (fun p => p.key == k)).map (fun p => p.value)

/-- `OSSL_MAC_PARAM_SIZE` (from `core_names.h`, outside `src/`). -/
def OSSL_MAC_PARAM_SIZE : String := "size"

/-- `OSSL_MAC_PARAM_XOF` (from `core_names.h`, outside `src/`). -/
def OSSL_MAC_PARAM_XOF : String := "xof"

/-- The algorithm descriptor `EVP_MAC` (struct in `evp_local.h`; its fields are
reconstructed from their uses in `mac_lib.c`).  `newctx` is modelled by the
result of invoking the context-constructor on the (fixed) provider context;
`none` models the constructor returning `NULL`.  Handlers that the C code
null-checks before calling are `Option` fields.  Get handlers return the
updated parameter list on success (`none` = returned 0); the set handler
returns the updated backend state on success; `final` returns the produced
bytes, the stored result length `l`, and the backend state after finalization.
`refcount` is the atomic reference count (maintained by `EVP_MAC_up_ref` and
`EVP_MAC_free` in `mac_meth.c`, outside `src/`). -/
structure EVP_MAC where
  name_id : Nat
  refcount : Nat
  newctx : Option MData
  dupctx : Option (MData → Option MData)
  init : MData → List Byte → List OSSLParam → Option MData
  update : MData → List Byte → Option MData
  final : Option (MData → Nat → Option (List Byte × Nat × MData))
  get_params : Option (List OSSLParam → Option (List OSSLParam))
  get_ctx_params : Option (MData → List OSSLParam → Option (List OSSLParam))
  set_ctx_params : Option (MData → List OSSLParam → Option MData)

/-- The context `EVP_MAC_CTX`: a reference to its descriptor and the
exclusively-owned opaque backend state (`none` = `NULL`). -/
structure EVP_MAC_CTX where
  meth : EVP_MAC
  data : Option MData

/-- Modelled from the spec: `EVP_MAC_up_ref` (in `mac_meth.c`, not under
`src/`) atomically increments the descriptor's reference count and reports
success; the call sites in `mac_lib.c` also handle its failure, which is
modelled by the caller's `uprefOk` oracle (on failure the count is untouched). -/
def EVP_MAC_up_ref (mac : EVP_MAC) : EVP_MAC :=
  { mac with refcount := mac.refcount + 1 }

/-- Modelled from the spec: `EVP_MAC_free` (in `mac_meth.c`, not under `src/`)
decrements the descriptor's reference count; teardown at zero releases the
descriptor's resources and is not otherwise observable here. -/
def EVP_MAC_free (mac : EVP_MAC) : EVP_MAC :=
  { mac with refcount := mac.refcount - 1 }

/-- Error reasons raised via `ERR_raise` in `mac_lib.c`. -/
inductive ErrCode where
  | mallocFailure        -- ERR_R_MALLOC_FAILURE
  | invalidNullAlgorithm -- EVP_R_INVALID_NULL_ALGORITHM
  | finalError           -- EVP_R_FINAL_ERROR
  | passedNullParameter  -- ERR_R_PASSED_NULL_PARAMETER
  | settingXofFailed     -- EVP_R_SETTING_XOF_FAILED
deriving DecidableEq, Repr

/-- `EVP_MAC_CTX_new(mac)`.  `zallocOk` models the `OPENSSL_zalloc` outcome and
`uprefOk` the `EVP_MAC_up_ref` outcome (`CRYPTO_UP_REF` can fail).  Returns the
created context (or `none` = `NULL`) together with the descriptor's state after
the call; on every failure path the reference count is untouched, because the
short-circuit order is zalloc, `newctx`, `up_ref`. -/
def EVP_MAC_CTX_new (mac : EVP_MAC) (zallocOk : Bool) (uprefOk : Bool) :
    Option EVP_MAC_CTX × EVP_MAC :=
  if zallocOk = false then (none, mac)
  else
    match mac.newctx with
    | none => (none, mac)
    | some d =>
      if uprefOk = false then (none, mac)
      else (some ⟨EVP_MAC_up_ref mac, some d⟩, EVP_MAC_up_ref mac)

/-- Outcome of `EVP_MAC_CTX_dup`. `ok dst mac` returns the new context and the
shared descriptor's state after the call; `fail e mac` models returning `NULL`
(with the error raised, if any); `nullFnCall` marks the path on which the C
code invokes `src->meth->dupctx` although that table entry is a null function
pointer — undefined behaviour, not an error return. -/
inductive DupResult where
  | ok (dst : EVP_MAC_CTX) (mac : EVP_MAC)
  | fail (err : Option ErrCode) (mac : EVP_MAC)
  | nullFnCall

/-- Whether a `DupResult` is an error return (`NULL` from the function). -/
def DupResult.isFail : DupResult → Bool
  | .fail _ _ => true
  | _ => false

/-- Whether a `DupResult` is the unchecked null-function-pointer invocation. -/
def DupResult.isNullFnCall : DupResult → Bool
  | .nullFnCall => true
  | _ => false

/-- `EVP_MAC_CTX_dup(src)`.  `mallocOk` models the `OPENSSL_malloc` outcome,
`uprefOk` the `EVP_MAC_up_ref` outcome.  The C order is: `src->data` null
check, malloc, `*dst = *src`, `up_ref(dst->meth)`, then the unchecked call
`src->meth->dupctx(src->data)`; if that returns `NULL` the code frees `dst`
via `EVP_MAC_CTX_free`, which decrements the count it just incremented. -/
def EVP_MAC_CTX_dup (src : EVP_MAC_CTX) (mallocOk uprefOk : Bool) : DupResult :=
  match src.data with
  | none => .fail none src.meth
  | some d =>
    if mallocOk = false then .fail (some .mallocFailure) src.meth
    else if uprefOk = false then .fail (some .mallocFailure) src.meth
    else
      let meth' := EVP_MAC_up_ref src.meth
      match src.meth.dupctx with
      | none => .nullFnCall
      | some dup =>
        match dup d with
        | none => .fail none (EVP_MAC_free meth')
        | some d' => .ok ⟨meth', some d'⟩ meth'

/-- `EVP_MAC_CTX_get_mac_size(ctx)`: with backend state present, ask the
context-granularity get handler for `OSSL_MAC_PARAM_SIZE`; only when that
handler is a null pointer fall back to the algorithm-level get handler; if no
handler succeeds (or the state is absent) return 0. -/
def EVP_MAC_CTX_get_mac_size (ctx : EVP_MAC_CTX) : Nat :=
  match ctx.data with
  | none => 0
  | some d =>
    let params := [OSSL_PARAM_construct_size_t OSSL_MAC_PARAM_SIZE 0]
    match ctx.meth.get_ctx_params with
    | some f =>
      match f d params with
      | some ps => (lookupParam OSSL_MAC_PARAM_SIZE ps).getD 0
      | none => 0
    | none =>
      match ctx.meth.get_params with
      | some g =>
        match g params with
        | some ps => (lookupParam OSSL_MAC_PARAM_SIZE ps).getD 0
        | none => 0
      | none => 0

/-- `EVP_MAC_init(ctx, key, keylen, params)`: direct dispatch to the backend. -/
def EVP_MAC_init (ctx : EVP_MAC_CTX) (key : List Byte) (params : List OSSLParam) :
    Bool × EVP_MAC_CTX :=
  match ctx.data with
  | none => (false, ctx)
  | some d =>
    match ctx.meth.init d key params with
    | none => (false, ctx)
    | some d' => (true, { ctx with data := some d' })

/-- `EVP_MAC_update(ctx, data, datalen)`: direct dispatch to the backend. -/
def EVP_MAC_update (ctx : EVP_MAC_CTX) (bytes : List Byte) : Bool × EVP_MAC_CTX :=
  match ctx.data with
  | none => (false, ctx)
  | some d =>
    match ctx.meth.update d bytes with
    | none => (false, ctx)
    | some d' => (true, { ctx with data := some d' })

/-- `EVP_MAC_get_params(mac, params)`: 1 (success, params untouched) when the
backend has no algorithm-level get handler, otherwise the handler's verdict. -/
def EVP_MAC_get_params (mac : EVP_MAC) (ps : List OSSLParam) :
    Bool × List OSSLParam :=
  match mac.get_params with
  | none => (true, ps)
  | some f =>
    match f ps with
    | none => (false, ps)
    | some ps' => (true, ps')

/-- `EVP_MAC_CTX_get_params(ctx, params)`: 1 (success, no effect) when the
backend has no context-level get handler, otherwise the handler's verdict.
The handler receives `ctx->data`; invoking it with `NULL` state is modelled
as rejection. -/
def EVP_MAC_CTX_get_params (ctx : EVP_MAC_CTX) (ps : List OSSLParam) :
    Bool × List OSSLParam :=
  match ctx.meth.get_ctx_params with
  | none => (true, ps)
  | some f =>
    match ctx.data with
    | none => (false, ps)
    | some d =>
      match f d ps with
      | none => (false, ps)
      | some ps' => (true, ps')

/-- `EVP_MAC_CTX_set_params(ctx, params)`: 1 (success, no effect) when the
backend has no context-level set handler, otherwise the handler's verdict and
the updated backend state.  The handler receives `ctx->data`; invoking it with
`NULL` state is modelled as rejection. -/
def EVP_MAC_CTX_set_params (ctx : EVP_MAC_CTX) (ps : List OSSLParam) :
    Bool × EVP_MAC_CTX :=
  match ctx.meth.set_ctx_params with
  | none => (true, ctx)
  | some f =>
    match ctx.data with
    | none => (false, ctx)
    | some d =>
      match f d ps with
      | none => (false, ctx)
      | some d' => (true, { ctx with data := some d' })

/-- The observable outcome of `evp_mac_final`: the returned success flag, the
error raised (if any), the value stored through `outl` (if that pointer was
present and written), the bytes written through `out` (if any), and the
context after the call (backend-state mutation happens through pointers in C,
so it is threaded explicitly here; `none` mirrors a `NULL` input context). -/
structure FinalOut where
  res : Bool
  err : Option ErrCode
  outlVal : Option Nat
  outBytes : Option (List Byte)
  ctx : Option EVP_MAC_CTX

/-- `evp_mac_final(ctx, xof, out, outl, outsize)`.  `outPresent` / `outlPresent`
model the `out` / `outl` pointers being non-`NULL`.  Check order follows the C:
null context, null finalizer, probe mode (`out == NULL`), XOF negotiation via
`EVP_MAC_CTX_set_params`, then the backend finalizer.  When the finalizer
rejects, the stored length `l` is indeterminate in C; the model reports
`outlVal = none` and leaves the state unchanged.  Invoking the finalizer with
`NULL` backend state is modelled as rejection. -/
def evp_mac_final (octx : Option EVP_MAC_CTX) (xof : Bool)
    (outPresent outlPresent : Bool) (outsize : Nat) : FinalOut :=
  match octx with
  | none => ⟨false, some .invalidNullAlgorithm, none, none, none⟩
  | some ctx =>
    match ctx.meth.final with
    | none => ⟨false, some .finalError, none, none, some ctx⟩
    | some fin =>
      if outPresent = false then
        if outlPresent = false then
          ⟨false, some .passedNullParameter, none, none, some ctx⟩
        else
          ⟨true, none, some (EVP_MAC_CTX_get_mac_size ctx), none, some ctx⟩
      else
        let step2 : EVP_MAC_CTX → FinalOut := fun c =>
          match c.data with
          | none => ⟨false, none, none, none, some c⟩
          | some d =>
            match fin d outsize with
            | none => ⟨false, none, none, none, some c⟩
            | some (bytes, l, d') =>
              ⟨true, none, if outlPresent then some l else none,
                some bytes, some { c with data := some d' }⟩
        if xof then
          let params := [OSSL_PARAM_construct_int OSSL_MAC_PARAM_XOF 1]
          match EVP_MAC_CTX_set_params ctx params with
          | (false, _) => ⟨false, some .settingXofFailed, none, none, some ctx⟩
          | (true, ctx') => step2 ctx'
        else step2 ctx

/-- `EVP_MAC_final(ctx, out, outl, outsize)` = `evp_mac_final(ctx, 0, ...)`. -/
def EVP_MAC_final (octx : Option EVP_MAC_CTX) (outPresent outlPresent : Bool)
    (outsize : Nat) : FinalOut :=
  evp_mac_final octx false outPresent outlPresent outsize

/-- `EVP_MAC_finalXOF(ctx, out, outsize)` = `evp_mac_final(ctx, 1, out, NULL, outsize)`. -/
def EVP_MAC_finalXOF (octx : Option EVP_MAC_CTX) (outPresent : Bool)
    (outsize : Nat) : FinalOut :=
  evp_mac_final octx true outPresent false outsize

/-!
Heap-level model of the context lifecycle, needed to talk about handles that
are `NULL`, live, or dangling (already freed).  Contexts of one shared
descriptor live at addresses; `OPENSSL_free` deallocates a cell but C leaves
the caller's pointer dangling, and `EVP_MAC_CTX_free` dereferences its
argument without any liveness check (its only guard is `ctx == NULL`), so a
freed cell keeps its last-written field contents readable, as the dangling
dereference in the source would read them. -/

namespace MacHeap

/-- One heap cell holding an `EVP_MAC_CTX` allocation for the shared
descriptor: whether the cell is currently allocated, and the context's `data`
field contents (which a dangling read still sees after deallocation). -/
structure Cell where
  allocated : Bool
  data : Option MacSpec.MData
deriving Repr, DecidableEq

/-- The world: the shared descriptor and the heap of context cells (every
cell's `meth` field points at that descriptor). -/
structure World where
  mac : MacSpec.EVP_MAC
  cells : List Cell

/-- A context handle: `none` is the `NULL` pointer, `some addr` points at heap
cell `addr` (live or dangling — the pointer itself does not say which). -/
abbrev Handle := Option Nat

/-- `EVP_MAC_CTX_free(ctx)` at heap level.  The source's only guard is
`if (ctx == NULL) return;`.  For a non-`NULL` handle it unconditionally runs
the release path: `ctx->meth->freectx(ctx->data)`, `ctx->data = NULL`,
`EVP_MAC_free(ctx->meth)` (reference-count decrement), `OPENSSL_free(ctx)` —
whether or not the cell is still allocated. -/
def EVP_MAC_CTX_free (w : World) (h : Handle) : World :=
  match h with
  | none => w
  | some addr =>
    { mac := MacSpec.EVP_MAC_free w.mac,
      cells := w.cells.set addr ⟨false, none⟩ }

end MacHeap

/-!
Reference-count accounting machine for `EVP_MAC_CTX_new` / `EVP_MAC_CTX_dup` /
`EVP_MAC_CTX_free` sequences against one shared descriptor.  Each operation's
effect on the count is read off the corresponding `mac_lib.c` path; the
`Bool` fields are the allocation / `up_ref` / backend outcomes on that path.
`free` is the release of a live context (the only frees the claim quantifies
over); its guard `live ≠ 0` encodes that admissibility. -/

namespace RC

/-- One lifecycle operation on the shared descriptor. -/
inductive MacOp where
  | create (zallocOk newctxOk uprefOk : Bool)
  | dup (srcHasData mallocOk uprefOk dupctxOk : Bool)
  | free
deriving Repr, DecidableEq

/-- Accounting state: total successful `up_ref` increments, total
`EVP_MAC_free` decrements, and the number of live contexts. -/
structure RCState where
  incs : Nat
  decs : Nat
  live : Nat
deriving Repr, DecidableEq

/-- Effect of one operation, read off the `mac_lib.c` paths:
`create` increments only when zalloc, `newctx` and `up_ref` all succeed (the
short-circuit order guarantees no decrement on its failure paths); `dup` needs
a live source, fails without touching the count when `src->data` is `NULL`,
malloc fails or `up_ref` fails, and on `dupctx` failure undoes its increment
via `EVP_MAC_CTX_free(dst)` (one inc and one dec); `free` of a live context
decrements exactly once. -/
def rcStep (s : RCState) : MacOp → RCState
  | .create z n u =>
    if z && n && u then { s with incs := s.incs + 1, live := s.live + 1 } else s
  | .dup hd m u dOk =>
    if s.live = 0 then s
    else if hd = false then s
    else if m = false then s
    else if u = false then s
    else if dOk then { s with incs := s.incs + 1, live := s.live + 1 }
    else { s with incs := s.incs + 1, decs := s.decs + 1 }
  | .free =>
    if s.live = 0 then s
    else { s with decs := s.decs + 1, live := s.live - 1 }

/-- Run a sequence of lifecycle operations from a state. -/
def rcRun (ops : List MacOp) (s : RCState) : RCState :=
  ops.foldl rcStep s

/-- The inductive invariant: decrements never outrun increments, and the
difference is exactly the number of live contexts. -/
def rcInv (s : RCState) : Prop :=
  s.decs ≤ s.incs ∧ s.incs = s.decs + s.live

theorem rcStep_inv (s : RCState) (op : MacOp) (h : rcInv s) : rcInv (rcStep s op) := by
  obtain ⟨h1, h2⟩ := h
  cases op <;> simp only [rcStep, rcInv] <;> repeat' split
  all_goals constructor <;> dsimp only <;> omega

theorem rcRun_inv (ops : List MacOp) (s : RCState) (h : rcInv s) :
    rcInv (rcRun ops s) := by
  induction ops generalizing s with
  | nil => exact h
  | cons op rest ih => exact ih (rcStep s op) (rcStep_inv s op h)

end RC

/-!
Model of `getFlags` from `src/cli/cmd/util.go`.  Go strings are modelled as
`List Char`; `strings.Replace(s, old, new, 1)` with `new = ""` removes the
first occurrence of `old`. -/

namespace GoCmd

/-- The literal `"--"`. -/
def dashDash : List Char := ['-', '-']

/-- `strings.HasPrefix(s, pat)` on `List Char`. -/
def strHasPre (pat s : List Char) : Bool :=
  match pat, s with
  | [], _ => true
  | _ :: _, [] => false
  | p :: ps, c :: cs => p == c && strHasPre ps cs

/-- `strings.Replace(s, pat, "", 1)`: remove the first occurrence of `pat`
from `s` (no change when `pat` does not occur).  `pat` is assumed nonempty,
as at the call site. -/
def stringsReplace1 (pat : List Char) : List Char → List Char
  | [] => []
  | c :: rest =>
    if strHasPre pat (c :: rest) then rest.drop (pat.length - 1)
    else c :: stringsReplace1 pat rest

/-- `getFlags(args)`: allocate `make([]string, len(args))` (that many empty
strings), then `append` each `"--"`-prefixed argument with its first `"--"`
removed. -/
def getFlags (args : List (List Char)) : List (List Char) :=
  args.foldl
    (fun rv arg =>
      if strHasPre dashDash arg then rv ++ [stringsReplace1 dashDash arg]
      else rv)
    (List.replicate args.length ([] : List Char))

theorem getFlags_foldl_append (args : List (List Char)) (acc : List (List Char)) :
    args.foldl
      (fun rv arg =>
        if strHasPre dashDash arg then rv ++ [stringsReplace1 dashDash arg]
        else rv) acc
      = acc ++ (args.filter (fun a => strHasPre dashDash a)).map
          (stringsReplace1 dashDash) := by
  induction args generalizing acc with
  | nil => simp
  | cons a rest ih =>
    by_cases h : strHasPre dashDash a
    · simp [List.foldl_cons, List.filter_cons, h, ih]
    · simp [List.foldl_cons, List.filter_cons, h, ih]

end GoCmd

/-!
Concrete backend instances used to instantiate the theorems below.  `stub32`
realises the spec's "stub-32" scenario: declared 32-byte fixed output, a
finalizer that rejects undersized buffers.  The other instances vary one
operation-table entry each. -/

/-- Overwrite the value of the `size` entry (a get handler writing through the
`size_t` the caller's param points at), leaving other entries untouched. -/
def setSizeEntry (n : Nat) (ps : List OSSLParam) : List OSSLParam :=
  ps.map (fun p => if p.key == OSSL_MAC_PARAM_SIZE then ⟨p.key, n⟩ else p)

/-- stub-32 context-granularity get handler: declares a 32-byte output. -/
def stub32get (_d : MData) (ps : List OSSLParam) : Option (List OSSLParam) :=
  some (setSizeEntry 32 ps)

/-- stub-32 finalizer: rejects a buffer smaller than the declared 32 bytes,
otherwise writes 32 bytes derived from the backend state. -/
def stub32final (d : MData) (outsize : Nat) : Option (List Byte × Nat × MData) :=
  if outsize < 32 then none else some (List.replicate 32 d, 32, d)

/-- stub-32 duplicator: clones the backend state. -/
def stub32dup (d : MData) : Option MData := some d

/-- stub-32 init: absorbs the key into the state. -/
def stub32init (d : MData) (key : List Byte) (_ps : List OSSLParam) : Option MData :=
  some (d + key.sum)

/-- stub-32 update: absorbs the data into the state. -/
def stub32update (d : MData) (bytes : List Byte) : Option MData :=
  some (d + bytes.sum)

/-- The stub-32 descriptor. -/
def stub32mac : EVP_MAC :=
  { name_id := 1, refcount := 1, newctx := some 0,
    dupctx := some stub32dup, init := stub32init, update := stub32update,
    final := some stub32final, get_params := none,
    get_ctx_params := some stub32get, set_ctx_params := none }

/-- A live stub-32 context. -/
def stub32ctx : EVP_MAC_CTX := ⟨stub32mac, some 0⟩

/-- A finalizer that ignores `outsize` entirely (never rejects). -/
def permFinal (d : MData) (_outsize : Nat) : Option (List Byte × Nat × MData) :=
  some (List.replicate 32 d, 32, d)

/-- A descriptor declaring 32-byte output whose finalizer never checks the
buffer size. -/
def permMac : EVP_MAC := { stub32mac with final := some permFinal }

/-- A live context of `permMac`. -/
def permCtx : EVP_MAC_CTX := ⟨permMac, some 0⟩

/-- A descriptor with no finalizer. -/
def noFinalMac : EVP_MAC := { stub32mac with final := none }

/-- A live context of `noFinalMac`. -/
def noFinalCtx : EVP_MAC_CTX := ⟨noFinalMac, some 0⟩

/-- A descriptor with no duplicator (`dupctx` is a null function pointer). -/
def noDupMac : EVP_MAC := { stub32mac with dupctx := none }

/-- A live context of `noDupMac`. -/
def noDupCtx : EVP_MAC_CTX := ⟨noDupMac, some 0⟩

/-- A set handler that accepts every parameter bag (extendable-output capable). -/
def xofSet (d : MData) (_ps : List OSSLParam) : Option MData := some d

/-- An extendable-output finalizer: writes exactly `outsize` bytes. -/
def xofFinal (d : MData) (outsize : Nat) : Option (List Byte × Nat × MData) :=
  some (List.replicate outsize d, outsize, d)

/-- An extendable-output-capable descriptor. -/
def xofMac : EVP_MAC :=
  { stub32mac with final := some xofFinal, set_ctx_params := some xofSet }

/-- A live context of `xofMac`. -/
def xofCtx : EVP_MAC_CTX := ⟨xofMac, some 0⟩

/-- A set handler that rejects every parameter bag (not extendable-output
capable). -/
def rejSet (_d : MData) (_ps : List OSSLParam) : Option MData := none

/-- A fixed-length-only descriptor whose set handler rejects the XOF request. -/
def rejMac : EVP_MAC := { stub32mac with set_ctx_params := some rejSet }

/-- A live context of `rejMac`. -/
def rejCtx : EVP_MAC_CTX := ⟨rejMac, some 0⟩

/-- C1 (counterexample): on a live context whose descriptor declares no
duplicator (and with allocation and `up_ref` succeeding), `EVP_MAC_CTX_dup`
does not fail with an error result at all — the code invokes the null
`dupctx` function pointer (undefined behaviour), so the claim that it "fails
with `Unsupported`" is false at this input. -/
theorem C1_dup_no_duplicator_counterexample :
    (EVP_MAC_CTX_dup noDupCtx true true).isFail = false ∧
    (EVP_MAC_CTX_dup noDupCtx true true).isNullFnCall = true :=
  ⟨rfl, rfl⟩

/-- C1 (amended): for a context whose descriptor declares no duplicator,
`EVP_MAC_CTX_dup` invokes the null `dupctx` pointer (undefined behaviour)
instead of returning an `Unsupported` error; for a context with a duplicator
(allocation and `up_ref` succeeding), it produces an independent copy whose
backend state is the duplicator's clone of the source state, and increments
the shared descriptor's reference count by one. -/
theorem C1_dup_amended :
    (∀ (src : EVP_MAC_CTX) (d : MData), src.data = some d →
      src.meth.dupctx = none →
      EVP_MAC_CTX_dup src true true = DupResult.nullFnCall) ∧
    (∀ (src : EVP_MAC_CTX) (d : MData) (f : MData → Option MData) (d' : MData),
      src.data = some d → src.meth.dupctx = some f → f d = some d' →
      EVP_MAC_CTX_dup src true true =
        DupResult.ok ⟨EVP_MAC_up_ref src.meth, some d'⟩ (EVP_MAC_up_ref src.meth) ∧
      (EVP_MAC_up_ref src.meth).refcount = src.meth.refcount + 1) := by
  constructor
  · intro src d h1 h2
    simp [EVP_MAC_CTX_dup, h1, h2]
  · intro src d f d' h1 h2 h3
    refine ⟨?_, rfl⟩
    simp [EVP_MAC_CTX_dup, h1, h2, h3]

/-- C1 witness: duplicating a live stub-32 context clones the backend state
and increments the reference count from 1 to 2. -/
theorem C1_dup_amended_witness :
    EVP_MAC_CTX_dup stub32ctx true true =
      DupResult.ok ⟨EVP_MAC_up_ref stub32mac, some 0⟩ (EVP_MAC_up_ref stub32mac) ∧
    (EVP_MAC_up_ref stub32mac).refcount = 2 := by
  have h := C1_dup_amended.2 stub32ctx 0 stub32dup 0 rfl rfl rfl
  exact ⟨h.1, h.2⟩

/-- C2 (counterexample): the buffer-size check is not performed by this layer.
`permCtx` declares a 32-byte output (`EVP_MAC_CTX_get_mac_size` = 32), yet a
compute-mode finalize with a 16-byte buffer succeeds, because the layer
forwards `outsize` to the backend finalizer and `permFinal` never checks it.
So the claim that every undersized compute-mode call fails is false here. -/
theorem C2_undersized_buffer_counterexample :
    EVP_MAC_CTX_get_mac_size permCtx = 32 ∧
    (evp_mac_final (some permCtx) false true true 16).res = true :=
  ⟨rfl, rfl⟩

/-- C2 (amended): in compute mode this layer returns exactly the backend
finalizer's verdict on `(state, outsize)` — the undersized-buffer rejection
is delegated to the backend, not enforced here; in the stub-32 scenario
(declared 32-byte output, finalizer rejecting undersized buffers), a 16-byte
buffer fails and a 32-byte buffer succeeds. -/
theorem C2_undersized_buffer_amended :
    (∀ (ctx : EVP_MAC_CTX) (d : MData)
        (fin : MData → Nat → Option (List Byte × Nat × MData)) (n : Nat),
      ctx.data = some d → ctx.meth.final = some fin →
      (evp_mac_final (some ctx) false true true n).res = (fin d n).isSome) ∧
    (EVP_MAC_CTX_get_mac_size stub32ctx = 32 ∧
     (evp_mac_final (some stub32ctx) false true true 16).res = false ∧
     (evp_mac_final (some stub32ctx) false true true 32).res = true) := by
  constructor
  · intro ctx d fin n h1 h2
    rcases h : fin d n with _ | ⟨bytes, l, d'⟩ <;>
      simp [evp_mac_final, h1, h2, h]
  · exact ⟨rfl, rfl, rfl⟩

/-- C2 witness: the general delegation fact instantiated on the stub-32
context with a 16-byte buffer. -/
theorem C2_undersized_buffer_amended_witness :
    (evp_mac_final (some stub32ctx) false true true 16).res =
      (stub32final 0 16).isSome :=
  C2_undersized_buffer_amended.1 stub32ctx 0 stub32final 16 rfl rfl

/-- C3: `EVP_MAC_CTX_get_mac_size` returns 0 when the backend state is absent;
with state present it asks the context-granularity get handler for the `size`
parameter and returns what that handler reports; only when the context-level
handler is absent does it fall back to the algorithm-level handler; and it
returns 0 (not an error) when no handler yields a size (handler absent on
both levels, or the invoked handler fails). -/
theorem C3_outputSize_protocol :
    (∀ ctx : EVP_MAC_CTX, ctx.data = none → EVP_MAC_CTX_get_mac_size ctx = 0) ∧
    (∀ (ctx : EVP_MAC_CTX) (d : MData)
        (f : MData → List OSSLParam → Option (List OSSLParam)) (ps : List OSSLParam),
      ctx.data = some d → ctx.meth.get_ctx_params = some f →
      f d [OSSL_PARAM_construct_size_t OSSL_MAC_PARAM_SIZE 0] = some ps →
      EVP_MAC_CTX_get_mac_size ctx = (lookupParam OSSL_MAC_PARAM_SIZE ps).getD 0) ∧
    (∀ (ctx : EVP_MAC_CTX) (d : MData)
        (g : List OSSLParam → Option (List OSSLParam)) (ps : List OSSLParam),
      ctx.data = some d → ctx.meth.get_ctx_params = none →
      ctx.meth.get_params = some g →
      g [OSSL_PARAM_construct_size_t OSSL_MAC_PARAM_SIZE 0] = some ps →
      EVP_MAC_CTX_get_mac_size ctx = (lookupParam OSSL_MAC_PARAM_SIZE ps).getD 0) ∧
    (∀ (ctx : EVP_MAC_CTX) (d : MData)
        (f : MData → List OSSLParam → Option (List OSSLParam)),
      ctx.data = some d → ctx.meth.get_ctx_params = some f →
      f d [OSSL_PARAM_construct_size_t OSSL_MAC_PARAM_SIZE 0] = none →
      EVP_MAC_CTX_get_mac_size ctx = 0) ∧
    (∀ (ctx : EVP_MAC_CTX) (d : MData),
      ctx.data = some d → ctx.meth.get_ctx_params = none →
      ctx.meth.get_params = none → EVP_MAC_CTX_get_mac_size ctx = 0) := by
  refine ⟨?_, ?_, ?_, ?_, ?_⟩
  · intro ctx h
    simp [EVP_MAC_CTX_get_mac_size, h]
  · intro ctx d f ps h1 h2 h3
    simp [EVP_MAC_CTX_get_mac_size, h1, h2, h3]
  · intro ctx d g ps h1 h2 h3 h4
    simp [EVP_MAC_CTX_get_mac_size, h1, h2, h3, h4]
  · intro ctx d f h1 h2 h3
    simp [EVP_MAC_CTX_get_mac_size, h1, h2, h3]
  · intro ctx d h1 h2 h3
    simp [EVP_MAC_CTX_get_mac_size, h1, h2, h3]

/-- C3 witness: on the stub-32 context, the context-granularity handler
reports the declared 32-byte size. -/
theorem C3_outputSize_protocol_witness :
    EVP_MAC_CTX_get_mac_size stub32ctx =
      (lookupParam OSSL_MAC_PARAM_SIZE
        (setSizeEntry 32 [OSSL_PARAM_construct_size_t OSSL_MAC_PARAM_SIZE 0])).getD 0 :=
  C3_outputSize_protocol.2.1 stub32ctx 0 stub32get
    (setSizeEntry 32 [OSSL_PARAM_construct_size_t OSSL_MAC_PARAM_SIZE 0]) rfl rfl rfl

/-- C4 (counterexample): probe mode is not reached when the descriptor has no
finalizer — the `final == NULL` check precedes the `out == NULL` branch, so on
`noFinalCtx` a probe-mode call fails instead of returning the length.  The
claim that probe-mode finalize succeeds for every context is false here. -/
theorem C4_probe_counterexample :
    (evp_mac_final (some noFinalCtx) false false true 7).res = false ∧
    (evp_mac_final (some noFinalCtx) false false true 7).err =
      some ErrCode.finalError :=
  ⟨rfl, rfl⟩

/-- C4 (amended): for every context whose descriptor provides a finalizer, a
probe-mode finalize (`out` absent, `outl` present) succeeds, stores exactly
`EVP_MAC_CTX_get_mac_size ctx` through `outl`, writes no bytes, and returns
the context completely unchanged; consequently a subsequent compute-mode
finalize on the probed context behaves exactly as on the original context. -/
theorem C4_probe_amended :
    ∀ (ctx : EVP_MAC_CTX) (fin : MData → Nat → Option (List Byte × Nat × MData))
      (n m : Nat), ctx.meth.final = some fin →
      evp_mac_final (some ctx) false false true n =
        ⟨true, none, some (EVP_MAC_CTX_get_mac_size ctx), none, some ctx⟩ ∧
      evp_mac_final ((evp_mac_final (some ctx) false false true n).ctx)
          false true true m
        = evp_mac_final (some ctx) false true true m := by
  intro ctx fin n m h
  have h1 : evp_mac_final (some ctx) false false true n =
      ⟨true, none, some (EVP_MAC_CTX_get_mac_size ctx), none, some ctx⟩ := by
    simp [evp_mac_final, h]
  exact ⟨h1, by rw [h1]⟩

/-- C4 witness: probing the stub-32 context succeeds and reports its declared
size without touching the context. -/
theorem C4_probe_amended_witness :
    evp_mac_final (some stub32ctx) false false true 0 =
      ⟨true, none, some (EVP_MAC_CTX_get_mac_size stub32ctx), none, some stub32ctx⟩ :=
  (C4_probe_amended stub32ctx stub32final 0 0 rfl).1

/-- C5: `EVP_MAC_finalXOF` first negotiates extendable-output mode by passing
the `xof` parameter through `EVP_MAC_CTX_set_params`.  If the backend's set
handler rejects that bag, the call fails at once with `SETTING_XOF_FAILED`,
the context is returned unchanged and no bytes are produced — the conclusion
holds for an arbitrary finalizer `fin`, so the outcome does not depend on the
backend finalizer, which is therefore not consulted.  If the handler accepts,
the finalizer runs on the updated state with the caller-chosen `outsize`, and
for an extendable-output-capable finalizer (one whose successful output always
has exactly the requested length) the bytes written number exactly `n`. -/
theorem C5_finalXOF_negotiation :
    (∀ (ctx : EVP_MAC_CTX) (d : MData)
        (f : MData → List OSSLParam → Option MData)
        (fin : MData → Nat → Option (List Byte × Nat × MData)) (n : Nat),
      ctx.data = some d → ctx.meth.set_ctx_params = some f →
      ctx.meth.final = some fin →
      f d [OSSL_PARAM_construct_int OSSL_MAC_PARAM_XOF 1] = none →
      EVP_MAC_finalXOF (some ctx) true n =
        ⟨false, some ErrCode.settingXofFailed, none, none, some ctx⟩) ∧
    (∀ (ctx : EVP_MAC_CTX) (d : MData)
        (f : MData → List OSSLParam → Option MData) (d' : MData)
        (fin : MData → Nat → Option (List Byte × Nat × MData)) (n : Nat)
        (bs : List Byte) (l : Nat) (d2 : MData),
      ctx.data = some d → ctx.meth.set_ctx_params = some f →
      ctx.meth.final = some fin →
      f d [OSSL_PARAM_construct_int OSSL_MAC_PARAM_XOF 1] = some d' →
      fin d' n = some (bs, l, d2) →
      EVP_MAC_finalXOF (some ctx) true n =
        ⟨true, none, none, some bs, some { ctx with data := some d2 }⟩) ∧
    (∀ (ctx : EVP_MAC_CTX) (d : MData)
        (f : MData → List OSSLParam → Option MData) (d' : MData)
        (fin : MData → Nat → Option (List Byte × Nat × MData)) (n : Nat)
        (bs : List Byte) (l : Nat) (d2 : MData),
      ctx.data = some d → ctx.meth.set_ctx_params = some f →
      ctx.meth.final = some fin →
      f d [OSSL_PARAM_construct_int OSSL_MAC_PARAM_XOF 1] = some d' →
      fin d' n = some (bs, l, d2) →
      (∀ (m : MData) (k : Nat) (o : List Byte × Nat × MData),
        fin m k = some o → o.1.length = k) →
      (EVP_MAC_finalXOF (some ctx) true n).outBytes = some bs ∧ bs.length = n) := by
  refine ⟨?_, ?_, ?_⟩
  · intro ctx d f fin n h1 h2 h3 h4
    simp [EVP_MAC_finalXOF, evp_mac_final, EVP_MAC_CTX_set_params, h1, h2, h3, h4]
  · intro ctx d f d' fin n bs l d2 h1 h2 h3 h4 h5
    simp [EVP_MAC_finalXOF, evp_mac_final, EVP_MAC_CTX_set_params, h1, h2, h3, h4, h5]
  · intro ctx d f d' fin n bs l d2 h1 h2 h3 h4 h5 hcap
    refine ⟨?_, hcap d' n (bs, l, d2) h5⟩
    simp [EVP_MAC_finalXOF, evp_mac_final, EVP_MAC_CTX_set_params,
      h1, h2, h3, h4, h5]

/-- C5 witness: the rejecting backend fails without mutation, and the
extendable backend writes exactly the 5 requested bytes. -/
theorem C5_finalXOF_negotiation_witness :
    EVP_MAC_finalXOF (some rejCtx) true 5 =
      ⟨false, some ErrCode.settingXofFailed, none, none, some rejCtx⟩ ∧
    EVP_MAC_finalXOF (some xofCtx) true 5 =
      ⟨true, none, none, some (List.replicate 5 0), some { xofCtx with data := some 0 }⟩ :=
  ⟨C5_finalXOF_negotiation.1 rejCtx 0 rejSet stub32final 5 rfl rfl rfl rfl,
   C5_finalXOF_negotiation.2.1 xofCtx 0 xofSet 0 xofFinal 5
     (List.replicate 5 0) 5 0 rfl rfl rfl rfl rfl⟩

/-- C6: every get/set parameter entry point succeeds vacuously (with no effect
on the parameter bag or the context) when the backend exposes no corresponding
handler, and propagates the handler's verdict unchanged when one exists
(handlers are modelled returning their updated result on success, so the
propagated boolean is `Option.isSome` of the handler's result). -/
theorem C6_params_vacuous_success :
    (∀ (mac : EVP_MAC) (ps : List OSSLParam), mac.get_params = none →
      EVP_MAC_get_params mac ps = (true, ps)) ∧
    (∀ (mac : EVP_MAC) (ps : List OSSLParam)
        (f : List OSSLParam → Option (List OSSLParam)), mac.get_params = some f →
      (EVP_MAC_get_params mac ps).1 = (f ps).isSome) ∧
    (∀ (ctx : EVP_MAC_CTX) (ps : List OSSLParam), ctx.meth.get_ctx_params = none →
      EVP_MAC_CTX_get_params ctx ps = (true, ps)) ∧
    (∀ (ctx : EVP_MAC_CTX) (ps : List OSSLParam) (d : MData)
        (f : MData → List OSSLParam → Option (List OSSLParam)),
      ctx.meth.get_ctx_params = some f → ctx.data = some d →
      (EVP_MAC_CTX_get_params ctx ps).1 = (f d ps).isSome) ∧
    (∀ (ctx : EVP_MAC_CTX) (ps : List OSSLParam), ctx.meth.set_ctx_params = none →
      EVP_MAC_CTX_set_params ctx ps = (true, ctx)) ∧
    (∀ (ctx : EVP_MAC_CTX) (ps : List OSSLParam) (d : MData)
        (f : MData → List OSSLParam → Option MData),
      ctx.meth.set_ctx_params = some f → ctx.data = some d →
      (EVP_MAC_CTX_set_params ctx ps).1 = (f d ps).isSome) := by
  refine ⟨?_, ?_, ?_, ?_, ?_, ?_⟩
  · intro mac ps h
    simp [EVP_MAC_get_params, h]
  · intro mac ps f h
    rcases hf : f ps with _ | ps' <;> simp [EVP_MAC_get_params, h, hf]
  · intro ctx ps h
    simp [EVP_MAC_CTX_get_params, h]
  · intro ctx ps d f h hd
    rcases hf : f d ps with _ | ps' <;> simp [EVP_MAC_CTX_get_params, h, hd, hf]
  · intro ctx ps h
    simp [EVP_MAC_CTX_set_params, h]
  · intro ctx ps d f h hd
    rcases hf : f d ps with _ | d' <;> simp [EVP_MAC_CTX_set_params, h, hd, hf]

/-- C6 witness: the stub-32 backend has no set handler, so a set call succeeds
vacuously with the context untouched; its get handler's verdict is propagated
unchanged. -/
theorem C6_params_vacuous_success_witness :
    EVP_MAC_CTX_set_params stub32ctx [] = (true, stub32ctx) ∧
    (EVP_MAC_CTX_get_params stub32ctx []).1 = (stub32get 0 []).isSome :=
  ⟨C6_params_vacuous_success.2.2.2.2.1 stub32ctx [] rfl,
   C6_params_vacuous_success.2.2.2.1 stub32ctx [] 0 stub32get rfl rfl⟩

/-- C9: a finalize call with both the output buffer and the length
out-parameter absent returns failure (never a vacuous success) and leaves the
context unchanged with no bytes written; when the descriptor does provide a
finalizer, the error raised is `ERR_R_PASSED_NULL_PARAMETER` (a `NULL` input
context also fails, with `EVP_R_INVALID_NULL_ALGORITHM`). -/
theorem C9_finalize_both_null :
    (∀ (xof : Bool) (n : Nat), (evp_mac_final none xof false false n).res = false) ∧
    (∀ (ctx : EVP_MAC_CTX) (xof : Bool) (n : Nat),
      (evp_mac_final (some ctx) xof false false n).res = false ∧
      (evp_mac_final (some ctx) xof false false n).ctx = some ctx ∧
      (evp_mac_final (some ctx) xof false false n).outBytes = none) ∧
    (∀ (ctx : EVP_MAC_CTX)
        (fin : MData → Nat → Option (List Byte × Nat × MData)) (xof : Bool)
        (n : Nat), ctx.meth.final = some fin →
      (evp_mac_final (some ctx) xof false false n).err =
        some ErrCode.passedNullParameter) := by
  refine ⟨?_, ?_, ?_⟩
  · intro xof n
    simp [evp_mac_final]
  · intro ctx xof n
    rcases h : ctx.meth.final with _ | fin <;> simp [evp_mac_final, h]
  · intro ctx fin xof n h
    simp [evp_mac_final, h]

/-- C9 witness: on the stub-32 context the both-absent call fails with the
null-parameter error. -/
theorem C9_finalize_both_null_witness :
    (evp_mac_final (some stub32ctx) false false false 0).err =
      some ErrCode.passedNullParameter :=
  C9_finalize_both_null.2.2 stub32ctx stub32final false 0 rfl

/-- A world with one live context of a doubly-referenced descriptor, used to
exercise `EVP_MAC_CTX_free` on a handle that has already been freed. -/
def oneCtxWorld : MacHeap.World :=
  ⟨EVP_MAC_up_ref stub32mac, [⟨true, some 0⟩]⟩

/-- C7 (counterexample): `EVP_MAC_CTX_free` is not idempotent on an
already-freed handle.  Starting from a world whose descriptor holds two
references and one live context at address 0, the first free deallocates the
cell and drops the count to 1; calling free again on the same (now dangling,
non-`NULL`) handle is not a no-op: the only guard in the source is
`ctx == NULL`, so the release path runs again and decrements the count a
second time, to 0. -/
theorem C7_free_idempotent_counterexample :
    (MacHeap.EVP_MAC_CTX_free oneCtxWorld (some 0)).mac.refcount = 1 ∧
    (MacHeap.EVP_MAC_CTX_free oneCtxWorld (some 0)).cells =
      [⟨false, none⟩] ∧
    (MacHeap.EVP_MAC_CTX_free
        (MacHeap.EVP_MAC_CTX_free oneCtxWorld (some 0)) (some 0)).mac.refcount = 0 :=
  ⟨rfl, rfl, rfl⟩

/-- C7 (amended): freeing a `NULL` handle is a no-op that never errors and
never decrements; freeing a live context deallocates it, clears its backend
state and decrements the descriptor's reference count exactly once.  The code
does not guard against an already-freed (dangling, non-`NULL`) handle: only
`ctx == NULL` short-circuits, so a double free runs the release path again. -/
theorem C7_free_amended :
    (∀ w : MacHeap.World, MacHeap.EVP_MAC_CTX_free w none = w) ∧
    (∀ (w : MacHeap.World) (addr : Nat) (c : MacHeap.Cell),
      w.cells[addr]? = some c → c.allocated = true →
      (MacHeap.EVP_MAC_CTX_free w (some addr)).mac.refcount =
        w.mac.refcount - 1 ∧
      (MacHeap.EVP_MAC_CTX_free w (some addr)).cells[addr]? =
        some ⟨false, none⟩) := by
  constructor
  · intro w
    rfl
  · intro w addr c hget _halloc
    have hlt : addr < w.cells.length := by
      rcases List.getElem?_eq_some.1 hget with ⟨h, _⟩
      exact h
    refine ⟨rfl, ?_⟩
    simpa [MacHeap.EVP_MAC_CTX_free] using
      List.getElem?_set_eq_of_lt (⟨false, none⟩ : MacHeap.Cell) hlt

/-- C7 witness: the amended facts at the concrete one-context world. -/
theorem C7_free_amended_witness :
    (MacHeap.EVP_MAC_CTX_free oneCtxWorld (some 0)).mac.refcount =
      oneCtxWorld.mac.refcount - 1 ∧
    (MacHeap.EVP_MAC_CTX_free oneCtxWorld (some 0)).cells[0]? =
      some ⟨false, none⟩ :=
  C7_free_amended.2 oneCtxWorld 0 ⟨true, some 0⟩ rfl rfl

/-- C8: across every sequence of create/duplicate/free operations the
accounting machine (whose step effects are read off the `mac_lib.c` paths)
never lets total decrements exceed total successful increments, so for any
initial reference count `r0` the count `r0 + incs - decs` never drops below
`r0` — in particular it never goes negative.  The per-call conjuncts tie the
machine to the functional model: a successful `EVP_MAC_CTX_new` increments
the descriptor's count by exactly one and a failed one leaves it unchanged,
and likewise a successful `EVP_MAC_CTX_dup` increments by exactly one while
every `NULL`-returning path leaves the count as it found it. -/
theorem C8_refcount_never_negative :
    (∀ ops : List RC.MacOp,
      (RC.rcRun ops ⟨0, 0, 0⟩).decs ≤ (RC.rcRun ops ⟨0, 0, 0⟩).incs ∧
      ∀ r0 : Nat,
        (r0 : Int) ≤ (r0 : Int) + (RC.rcRun ops ⟨0, 0, 0⟩).incs -
          (RC.rcRun ops ⟨0, 0, 0⟩).decs) ∧
    (∀ (mac : EVP_MAC) (z u : Bool),
      ((EVP_MAC_CTX_new mac z u).1.isSome = true →
        (EVP_MAC_CTX_new mac z u).2.refcount = mac.refcount + 1) ∧
      ((EVP_MAC_CTX_new mac z u).1 = none →
        (EVP_MAC_CTX_new mac z u).2 = mac)) ∧
    (∀ (src : EVP_MAC_CTX) (mOk uOk : Bool),
      (∀ (dst : EVP_MAC_CTX) (mac' : EVP_MAC),
        EVP_MAC_CTX_dup src mOk uOk = DupResult.ok dst mac' →
        mac'.refcount = src.meth.refcount + 1) ∧
      (∀ (e : Option ErrCode) (mac' : EVP_MAC),
        EVP_MAC_CTX_dup src mOk uOk = DupResult.fail e mac' →
        mac'.refcount = src.meth.refcount)) := by
  refine ⟨?_, ?_, ?_⟩
  · intro ops
    have h := RC.rcRun_inv ops ⟨0, 0, 0⟩ ⟨Nat.le_refl 0, rfl⟩
    exact ⟨h.1, fun r0 => by have := h.1; omega⟩
  · intro mac z u
    constructor
    · intro h
      rcases hz : z with _ | _ <;> rcases hn : mac.newctx with _ | d <;>
        rcases hu : u with _ | _ <;>
        simp_all [EVP_MAC_CTX_new, EVP_MAC_up_ref]
    · intro h
      rcases hz : z with _ | _ <;> rcases hn : mac.newctx with _ | d <;>
        rcases hu : u with _ | _ <;>
        simp_all [EVP_MAC_CTX_new, EVP_MAC_up_ref]
  · intro src mOk uOk
    constructor
    · intro dst mac' h
      simp only [EVP_MAC_CTX_dup] at h
      split at h
      · cases h
      · split at h
        · cases h
        · split at h
          · cases h
          · split at h
            · cases h
            · split at h
              · cases h
              · injection h with h1 h2
                subst h2
                rfl
    · intro e mac' h
      simp only [EVP_MAC_CTX_dup] at h
      split at h
      · injection h with h1 h2
        subst h2
        rfl
      · split at h
        · injection h with h1 h2
          subst h2
          rfl
        · split at h
          · injection h with h1 h2
            subst h2
            rfl
          · split at h
            · cases h
            · split at h
              · injection h with h1 h2
                subst h2
                simp [EVP_MAC_free, EVP_MAC_up_ref]
              · cases h

/-- C8 witness: a successful create on the stub-32 descriptor increments the
count from 1 to 2, and the machine invariant instantiated on a concrete
create/dup/free/free trace. -/
theorem C8_refcount_never_negative_witness :
    (EVP_MAC_CTX_new stub32mac true true).2.refcount = stub32mac.refcount + 1 ∧
    ((RC.rcRun [RC.MacOp.create true true true,
        RC.MacOp.dup true true true true, RC.MacOp.free, RC.MacOp.free]
        ⟨0, 0, 0⟩).decs ≤
      (RC.rcRun [RC.MacOp.create true true true,
        RC.MacOp.dup true true true true, RC.MacOp.free, RC.MacOp.free]
        ⟨0, 0, 0⟩).incs) :=
  ⟨(C8_refcount_never_negative.2.1 stub32mac true true).1 rfl,
   (C8_refcount_never_negative.1 [RC.MacOp.create true true true,
      RC.MacOp.dup true true true true, RC.MacOp.free, RC.MacOp.free]).1⟩

/-- C10: `getFlags args` is the pre-sized block of `len(args)` empty strings
followed by the `"--"`-prefixed arguments, in input order, each with its
first `"--"` occurrence removed; its length is `len(args) + k` where `k`
counts the `"--"`-prefixed arguments, and its first `len(args)` entries are
all empty. -/
theorem C10_getFlags_shape :
    ∀ args : List (List Char),
      GoCmd.getFlags args =
        List.replicate args.length [] ++
          (args.filter (fun a => GoCmd.strHasPre GoCmd.dashDash a)).map
            (GoCmd.stringsReplace1 GoCmd.dashDash) ∧
      (GoCmd.getFlags args).length =
        args.length +
          (args.filter (fun a => GoCmd.strHasPre GoCmd.dashDash a)).length ∧
      (GoCmd.getFlags args).take args.length = List.replicate args.length [] := by
  intro args
  have h := GoCmd.getFlags_foldl_append args
    (List.replicate args.length ([] : List Char))
  refine ⟨h, ?_, ?_⟩
  · rw [GoCmd.getFlags, h]
    simp
  · rw [GoCmd.getFlags, h]
    exact List.take_left' (by simp)

end MacSpec
